import Mathlib

/-!
Shallow embedding of `waybaccino.py` (Waybaccino), a Wayback Machine CDX
pagination tool.  Network I/O is abstracted by an oracle `Service` mapping a
request offset to the parsed outcome of that request; everything else is a
direct translation of the Python source:

* `ALLOWED_PARAMS`, `passesParamFilter` — the hard-coded parameter allow-list
  and the filter `any(param in url for param in ALLOWED_PARAMS)`.
* `cdx_base`, `cdx_base_api_url`, `cdx_api_url` — the query-string
  construction of lines 32-51 (the `years and years > 0` time window and the
  per-page `limit`/`offset` suffix).
* `fetchLoop` / `fetch_wayback_urls` — the pagination `while` loop of lines
  50-84.  A `Response.err` models any exception caught by the
  `except requests.exceptions.RequestException` clause (transport failure,
  `raise_for_status`, and `response.json()` decode errors, which raise
  `requests.exceptions.JSONDecodeError <: RequestException`).  The list
  comprehension `[item[0] for item in raw_urls]` is OUTSIDE the `try`
  block, so a row with no first element raises an uncaught `IndexError`;
  this is modelled by `extractFirsts` returning `none` and the loop
  answering `Outcome.crash` (process termination).  Requests are counted,
  and the stderr diagnostics of line 59 are recorded as `(domain, offset)`
  pairs in `FetchResult.errors`.  The loop takes explicit fuel; `none`
  means the fuel bound was hit, never used by any theorem below at a
  sufficient fuel.
* `get_urls_through_proxy` — the proxy replay loop of lines 87-105, with the
  network abstracted by `net : String → Option Nat` (`none` = an exception
  raised by `requests.get`, caught by `except Exception`; `some status` = a
  response, whatever its status, since `raise_for_status` is never called).
* `mainStart`, `runDomains`, `main_model` — the pre-network CLI validation of
  lines 124-128 and 162-165 (with Python truthiness of the optional string
  arguments), and the per-domain driver loops of `main`.
-/

namespace Waybaccino

/-- The hard-coded allow-list of lines 11-16 of `waybaccino.py`. -/
def ALLOWED_PARAMS : List String :=
  ["?q=", "?s=", "?search=", "?id=", "?lang=", "?keyword=", "?query=",
   "?page=", "?keywords=", "?year=", "?view=", "?email=", "?type=", "?name=",
   "?p=", "?month=", "?image=", "?list_type=", "?url=", "?terms=",
   "?categoryid=", "?key=", "?login=", "?begindate=", "?enddate="]

/-- Does `needle` occur at the head of the second list?  Building block for
the Python substring test `param in url`. -/
def headMatches : List Char → List Char → Bool
  | [], _ => true
  | _ :: _, [] => false
  | a :: as, b :: bs => a == b && headMatches as bs

/-- Does `needle` occur as a contiguous sublist anywhere in the second list?
This is the Python `needle in haystack` test on strings, written out on the
character lists. -/
def hasSub (needle : List Char) : List Char → Bool
  | [] => needle.isEmpty
  | h :: t => headMatches needle (h :: t) || hasSub needle t

/-- the Python `param in url` substring containment on strings. -/
def paramIn (param url : String) : Bool :=
  hasSub param.toList url.toList

/-- The filter of lines 72-75: `any(param in url for param in ALLOWED_PARAMS)`. -/
def passesParamFilter (url : String) : Bool :=
  ALLOWED_PARAMS.any (fun p => paramIn p url)

/-- Lines 72-75 as applied in the loop: filter the chunk when `param_filter`
is set, otherwise keep it unchanged. -/
def applyFilter (param_filter : Bool) (urls : List String) : List String :=
  if param_filter then urls.filter passesParamFilter else urls

/-- The fixed base query of lines 32-38 (endpoint, `output=json`,
`fl=original`, `collapse=urlkey`). -/
def cdx_base (domain : String) : String :=
  "http://web.archive.org/cdx/search/cdx?url=" ++ domain ++
    "/*&output=json&fl=original&collapse=urlkey"

/-- Lines 40-45: the optional time window.  The Python test
`if years and years > 0:` appends `&from={currentYear - years}&to={currentYear}`
exactly when `years` is present and positive (a `years` of `None`, `0` or a
negative number leaves the base query unchanged). -/
def cdx_base_api_url (domain : String) (years : Option Int) (currentYear : Int) : String :=
  match years with
  | some y =>
      if 0 < y then
        cdx_base domain ++ "&from=" ++ toString (currentYear - y) ++
          "&to=" ++ toString currentYear
      else cdx_base domain
  | none => cdx_base domain

/-- Line 51: the per-page URL, `base + &limit={chunk_size}&offset={offset}`. -/
def cdx_api_url (base : String) (chunk_size offset : Nat) : String :=
  base ++ "&limit=" ++ toString chunk_size ++ "&offset=" ++ toString offset

/-- Outcome of one page request, after the `try` block of lines 53-60.
`err` is any `requests.exceptions.RequestException` (transport failure,
non-success HTTP status via `raise_for_status`, JSON decode failure);
`ok data` is the successfully parsed JSON array of rows. -/
inductive Response where
  | err : Response
  | ok : List (List String) → Response
deriving DecidableEq

/-- The index service as seen by one fetch: the parsed outcome of the page
request at each offset. -/
def Service : Type := Nat → Response

/-- The accumulated state of one `fetch_wayback_urls` call:
`urls` is `all_filtered_urls`, `requests` counts issued page requests, and
`errors` records the stderr diagnostics of line 59 as (domain, offset). -/
structure FetchResult where
  urls : List String
  requests : Nat
  errors : List (String × Nat)
deriving DecidableEq

/-- How a fetch ends: `done` is a normal return from `fetch_wayback_urls`
(including the error `break` of line 60), `crash` is an uncaught exception
(the `IndexError` of line 68 on a row with no first element), which kills
the whole process. -/
inductive Outcome where
  | done : FetchResult → Outcome
  | crash : FetchResult → Outcome
deriving DecidableEq

/-- Line 68, `[item[0] for item in raw_urls]`: the first column of every row,
or `none` (uncaught `IndexError`) when some row is empty. -/
def extractFirsts : List (List String) → Option (List String)
  | [] => some []
  | [] :: _ => none
  | (u :: _) :: rest => (extractFirsts rest).map (fun us => u :: us)

/-- The `while True` pagination loop of lines 50-84, one constructor case per
iteration, with explicit fuel.  `data.drop 1` is
`data[1:] if len(data) > 1 else []` (they agree for every length), the
`raw.isEmpty` test is `if not raw_urls: break`, and the final test
`raw.length < chunk_size` is line 79. -/
def fetchLoop (service : Service) (chunk_size : Nat) (param_filter : Bool)
    (domain : String) : Nat → Nat → FetchResult → Option Outcome
  | 0, _, _ => none
  | fuel + 1, offset, st =>
    match service offset with
    | Response.err =>
        some (Outcome.done { st with requests := st.requests + 1,
                                     errors := st.errors ++ [(domain, offset)] })
    | Response.ok data =>
        let raw := data.drop 1
        if raw.isEmpty then
          some (Outcome.done { st with requests := st.requests + 1 })
        else
          match extractFirsts raw with
          | none => some (Outcome.crash { st with requests := st.requests + 1 })
          | some chunk =>
              let st2 : FetchResult :=
                { st with urls := st.urls ++ applyFilter param_filter chunk,
                          requests := st.requests + 1 }
              if raw.length < chunk_size then some (Outcome.done st2)
              else fetchLoop service chunk_size param_filter domain fuel
                     (offset + chunk_size) st2

/-- Lines 47-84 of `fetch_wayback_urls`: run the pagination loop from
offset 0 with an empty accumulator. -/
def fetch_wayback_urls (service : Service) (domain : String) (chunk_size : Nat)
    (param_filter : Bool) (fuel : Nat) : Option Outcome :=
  fetchLoop service chunk_size param_filter domain fuel 0 ⟨[], 0, []⟩

/-- The data page of a response, after dropping the header row (line 63). -/
def pageRows : Response → List (List String)
  | Response.err => []
  | Response.ok data => data.drop 1

/-- The CDX index service behaving as documented: it holds the finite index
`index` and answers the page request at `offset` with a header row followed
by one single-column row per entry of `index[offset : offset + limit]`. -/
def cdxService (index : List String) (limit : Nat) : Service :=
  fun offset =>
    Response.ok (["original"] :: ((index.drop offset).take limit).map (fun u => [u]))

/-- A CDX service that answers every offset from `index` except `badOffset`,
where the request fails (timeout, HTTP error status, or malformed JSON). -/
def serviceWithErrorAt (index : List String) (limit badOffset : Nat) : Service :=
  fun offset =>
    if offset = badOffset then Response.err else cdxService index limit offset

/-- Splitting a list into consecutive chunks of `n` (the pages the CDX
service serves).  The fuel argument of the auxiliary is instantiated with
the list length, which suffices whenever `1 ≤ n`. -/
def chunksOfAux {α : Type} (n : Nat) : Nat → List α → List (List α)
  | 0, _ => []
  | _ + 1, [] => []
  | fuel + 1, a :: l => ((a :: l).take n) :: chunksOfAux n fuel ((a :: l).drop n)

/-- The consecutive `n`-sized pages of a list. -/
def chunksOf {α : Type} (n : Nat) (l : List α) : List (List α) :=
  chunksOfAux n l.length l

/-- The proxy replay loop of lines 96-103: one GET per URL, counting the
URLs whose request raised no exception.  `net url = none` is an exception
from `requests.get` (caught by `except Exception: pass`); `some status` is
a response of any status.  The second component logs the URLs requested,
in order. -/
def proxyLoop (net : String → Option Nat) : List String → Nat → List String → Nat × List String
  | [], total_ok, log => (total_ok, log)
  | u :: rest, total_ok, log =>
      match net u with
      | some _ => proxyLoop net rest (total_ok + 1) (log ++ [u])
      | none => proxyLoop net rest total_ok (log ++ [u])

/-- Lines 87-105, `get_urls_through_proxy`: replay every URL through the
proxy and report the final tallies (line 105 prints
`Successful: {total_ok} / {total}`).  Returns
(successCount, totalCount, request log). -/
def get_urls_through_proxy (net : String → Option Nat) (urls : List String) :
    Nat × Nat × List String :=
  let r := proxyLoop net urls 0 []
  (r.1, urls.length, r.2)

/-- Python truthiness of an optional string CLI argument: absent and empty
are falsy. -/
def truthy : Option String → Bool
  | none => false
  | some s => !(s == "")

/-- Where `main` stands after the argument checks of lines 124-128 and the
file-existence check of lines 162-165, before any network request.
`exitUsage` is `parser.error` (exit status 2); `exitMissingFile` is
`sys.exit` on a missing domain-list file (exit status 1). -/
inductive MainStart where
  | exitUsage : String → MainStart
  | exitMissingFile : String → MainStart
  | runSingle : String → MainStart
  | runMulti : String → MainStart
deriving DecidableEq

/-- Lines 124-128 and 131-132 / 162-165 of `main`: reject the invalid target
combinations, then resolve the surviving mode, stripping the argument and in
multi mode checking that the list file exists. -/
def mainStart (single_target multiple_targets : Option String)
    (fileExists : String → Bool) : MainStart :=
  if !(truthy single_target) && !(truthy multiple_targets) then
    MainStart.exitUsage "Please provide either --single-target or --multiple-targets."
  else if truthy single_target && truthy multiple_targets then
    MainStart.exitUsage "Please provide only one: --single-target OR --multiple-targets."
  else if truthy single_target then
    MainStart.runSingle ((single_target.getD "").trim)
  else
    if !(fileExists ((multiple_targets.getD "").trim)) then
      MainStart.exitMissingFile
        ("The file " ++ (multiple_targets.getD "").trim ++ " does not exist.")
    else MainStart.runMulti ((multiple_targets.getD "").trim)

/-- Lines 167-168: `[line.strip() for line in f if line.strip()]`. -/
def parseDomainLines (lines : List String) : List String :=
  (lines.map String.trim).filter (fun s => !(s == ""))

/-- The multi-target loop of lines 170-195: fetch each domain in turn.  A
normal return (even one that hit a request error) moves on to the next
domain; an uncaught exception (`Outcome.crash`) or a diverging fetch kills
the process, answered here by `none`. -/
def runDomains (services : String → Service) (chunk_size : Nat)
    (param_filter : Bool) (fuel : Nat) : List String → Option (List (String × FetchResult))
  | [] => some []
  | d :: rest =>
      match fetch_wayback_urls (services d) d chunk_size param_filter fuel with
      | some (Outcome.done r) =>
          (runDomains services chunk_size param_filter fuel rest).map
            (fun l => (d, r) :: l)
      | _ => none

/-- The observable outcome of a `main` run.  `exited msg n` carries the
number of page requests issued before the exit, so that exiting before any
network activity is the statement `exited msg 0`. -/
inductive MainOutcome where
  | exited : String → Nat → MainOutcome
  | completed : List (String × FetchResult) → MainOutcome
  | crashed : MainOutcome
deriving DecidableEq

/-- `main` of lines 108-195 with the network and filesystem abstracted:
validate the CLI combination, then drive the single- or multi-target loop. -/
def main_model (single_target multiple_targets : Option String)
    (fileExists : String → Bool) (readLines : String → List String)
    (services : String → Service) (chunk_size : Nat) (param_filter : Bool)
    (fuel : Nat) : MainOutcome :=
  match mainStart single_target multiple_targets fileExists with
  | MainStart.exitUsage msg => MainOutcome.exited msg 0
  | MainStart.exitMissingFile msg => MainOutcome.exited msg 0
  | MainStart.runSingle d =>
      match fetch_wayback_urls (services d) d chunk_size param_filter fuel with
      | some (Outcome.done r) => MainOutcome.completed [(d, r)]
      | _ => MainOutcome.crashed
  | MainStart.runMulti f =>
      match runDomains services chunk_size param_filter fuel
              (parseDomainLines (readLines f)) with
      | some rs => MainOutcome.completed rs
      | none => MainOutcome.crashed

/-! Substring lemmas: `hasSub` is literal substring containment. -/

theorem headMatches_iff (n : List Char) :
    ∀ l, headMatches n l = true ↔ ∃ t, l = n ++ t := by
  induction n with
  | nil => intro l; simp [headMatches]
  | cons a as ih =>
    intro l
    cases l with
    | nil => simp [headMatches]
    | cons b bs =>
      simp only [headMatches, Bool.and_eq_true, beq_iff_eq, ih, List.cons_append,
        List.cons.injEq]
      constructor
      · rintro ⟨rfl, t, rfl⟩; exact ⟨t, rfl, rfl⟩
      · rintro ⟨t, rfl, rfl⟩; exact ⟨rfl, t, rfl⟩

theorem hasSub_iff (n : List Char) :
    ∀ l, hasSub n l = true ↔ ∃ p t, l = p ++ n ++ t := by
  intro l
  induction l with
  | nil =>
    simp only [hasSub, List.isEmpty_iff]
    constructor
    · rintro rfl; exact ⟨[], [], rfl⟩
    · rintro ⟨p, t, h⟩
      rcases List.append_eq_nil.mp h.symm with ⟨h1, -⟩
      exact (List.append_eq_nil.mp h1).2
  | cons c cs ih =>
    simp only [hasSub, Bool.or_eq_true, headMatches_iff, ih]
    constructor
    · rintro (⟨t, ht⟩ | ⟨p, t, ht⟩)
      · exact ⟨[], t, by simpa using ht⟩
      · exact ⟨c :: p, t, by simp [ht]⟩
    · rintro ⟨p, t, hp⟩
      cases p with
      | nil => exact Or.inl ⟨t, by simpa using hp⟩
      | cons x xs =>
        simp only [List.cons_append, List.cons.injEq] at hp
        exact Or.inr ⟨xs, t, hp.2⟩

/-- C4: the parameter filter accepts a URL iff the URL contains at least one
element of the fixed 25-entry allow-list as a literal substring anywhere in
the string (plain containment, no URL parsing); in particular
`http://x.com/?id=5` is accepted while `http://x.com/page?foo=1` and
`http://x.com/keyword=1` (no leading question mark) are rejected. -/
theorem param_filter_substring_spec :
    (∀ url : String, passesParamFilter url = true ↔
        ∃ p ∈ ALLOWED_PARAMS, ∃ pre suf, url.toList = pre ++ p.toList ++ suf)
  ∧ ALLOWED_PARAMS.length = 25
  ∧ passesParamFilter "http://x.com/?id=5" = true
  ∧ passesParamFilter "http://x.com/page?foo=1" = false
  ∧ passesParamFilter "http://x.com/keyword=1" = false := by
  refine ⟨fun url => ?_, by decide, by decide, by decide, by decide⟩
  simp [passesParamFilter, List.any_eq_true, paramIn, hasSub_iff]

/-! Proxy replay. -/

theorem proxyLoop_spec (net : String → Option Nat) :
    ∀ (urls : List String) (k : Nat) (log : List String),
      proxyLoop net urls k log
        = (k + (urls.filter (fun u => (net u).isSome)).length, log ++ urls) := by
  intro urls
  induction urls with
  | nil => intro k log; simp [proxyLoop]
  | cons u rest ih =>
    intro k log
    cases hnet : net u with
    | none =>
      simp [proxyLoop, hnet, ih, List.filter_cons]
    | some s =>
      simp [proxyLoop, hnet, ih, List.filter_cons]
      all_goals omega

/-- C5: proxy replay issues one GET per URL in input order (the request log
equals the input list, so no failure ever stops it), counts a URL as
successful exactly when `requests.get` raised no exception (a response of
any status, 2xx or not, counts), and reports the final tallies
(successCount, totalCount); concretely, 3 URLs of which one fails at the
transport level yield successCount 2 and totalCount 3 with the third URL
still requested. -/
theorem proxy_replay_spec :
    (∀ (net : String → Option Nat) (urls : List String),
        (get_urls_through_proxy net urls).2.2 = urls
      ∧ (get_urls_through_proxy net urls).2.1 = urls.length
      ∧ (get_urls_through_proxy net urls).1
          = (urls.filter (fun u => (net u).isSome)).length)
  ∧ get_urls_through_proxy
      (fun u => if u = "http://b.example/" then none else some 404)
      ["http://a.example/", "http://b.example/", "http://c.example/"]
      = (2, 3, ["http://a.example/", "http://b.example/", "http://c.example/"]) := by
  refine ⟨fun net urls => ?_, by decide⟩
  simp [get_urls_through_proxy, proxyLoop_spec]

/-! One-step unfolding lemmas for the pagination loop. -/

theorem fetchLoop_err_step (service : Service) (chunk_size : Nat)
    (param_filter : Bool) (domain : String) (fuel offset : Nat) (st : FetchResult)
    (herr : service offset = Response.err) :
    fetchLoop service chunk_size param_filter domain (fuel + 1) offset st
      = some (Outcome.done { st with requests := st.requests + 1,
                                     errors := st.errors ++ [(domain, offset)] }) := by
  simp [fetchLoop, herr]

theorem fetchLoop_empty_step (service : Service) (chunk_size : Nat)
    (param_filter : Bool) (domain : String) (fuel offset : Nat) (st : FetchResult)
    (data : List (List String)) (hok : service offset = Response.ok data)
    (hemp : data.drop 1 = []) :
    fetchLoop service chunk_size param_filter domain (fuel + 1) offset st
      = some (Outcome.done { st with requests := st.requests + 1 }) := by
  simp [fetchLoop, hok, hemp]

theorem fetchLoop_crash_step (service : Service) (chunk_size : Nat)
    (param_filter : Bool) (domain : String) (fuel offset : Nat) (st : FetchResult)
    (data : List (List String)) (hok : service offset = Response.ok data)
    (hne : data.drop 1 ≠ []) (hbad : extractFirsts (data.drop 1) = none) :
    fetchLoop service chunk_size param_filter domain (fuel + 1) offset st
      = some (Outcome.crash { st with requests := st.requests + 1 }) := by
  have hne' : data.tail ≠ [] := by rw [← List.drop_one]; exact hne
  have hbad' : extractFirsts data.tail = none := by rw [← List.drop_one]; exact hbad
  simp [fetchLoop, hok, hne', hbad']

theorem fetchLoop_ok_step (service : Service) (chunk_size : Nat)
    (param_filter : Bool) (domain : String) (fuel offset : Nat) (st : FetchResult)
    (data : List (List String)) (chunk : List String)
    (hok : service offset = Response.ok data) (hne : data.drop 1 ≠ [])
    (hext : extractFirsts (data.drop 1) = some chunk) :
    fetchLoop service chunk_size param_filter domain (fuel + 1) offset st
      = if (data.drop 1).length < chunk_size
        then some (Outcome.done
              { st with urls := st.urls ++ applyFilter param_filter chunk,
                        requests := st.requests + 1 })
        else fetchLoop service chunk_size param_filter domain fuel
              (offset + chunk_size)
              { st with urls := st.urls ++ applyFilter param_filter chunk,
                        requests := st.requests + 1 } := by
  have hne' : data.tail ≠ [] := by rw [← List.drop_one]; exact hne
  have hext' : extractFirsts data.tail = some chunk := by
    rw [← List.drop_one]; exact hext
  simp [fetchLoop, hok, hne', hext']

/-- C2: for every page returned during pagination, the decision to fetch
another page depends only on the unfiltered row count of that page (compare
it with `chunk_size`): the accumulated URLs get the filtered chunk, but the
branch taken — stop, or issue a further request with the offset advanced by
`chunk_size` — is decided by the raw row count alone, so a full page whose
URLs are all removed by the filter still triggers the next request. -/
theorem termination_uses_unfiltered_count (service : Service) (chunk_size : Nat)
    (param_filter : Bool) (domain : String) (fuel offset : Nat) (st : FetchResult)
    (data : List (List String)) (chunk : List String)
    (hok : service offset = Response.ok data) (hne : data.drop 1 ≠ [])
    (hext : extractFirsts (data.drop 1) = some chunk) :
    fetchLoop service chunk_size param_filter domain (fuel + 1) offset st
      = if (data.drop 1).length < chunk_size
        then some (Outcome.done
              { st with urls := st.urls ++ applyFilter param_filter chunk,
                        requests := st.requests + 1 })
        else fetchLoop service chunk_size param_filter domain fuel
              (offset + chunk_size)
              { st with urls := st.urls ++ applyFilter param_filter chunk,
                        requests := st.requests + 1 } :=
  fetchLoop_ok_step service chunk_size param_filter domain fuel offset st data
    chunk hok hne hext

/-- Witness for C2: a page of exactly 2 raw rows with `chunk_size = 2` whose
URLs are all removed by the filter still continues at offset 2 with an
unchanged (empty) accumulator. -/
theorem termination_uses_unfiltered_count_witness :
    fetchLoop (fun _ => Response.ok [["original"], ["http://x.com/a"], ["http://x.com/b"]])
        2 true "d" 2 0 ⟨[], 0, []⟩
      = fetchLoop (fun _ => Response.ok [["original"], ["http://x.com/a"], ["http://x.com/b"]])
          2 true "d" 1 2 ⟨[], 1, []⟩ := by
  have h := termination_uses_unfiltered_count
      (fun _ => Response.ok [["original"], ["http://x.com/a"], ["http://x.com/b"]])
      2 true "d" 1 0 ⟨[], 0, []⟩
      [["original"], ["http://x.com/a"], ["http://x.com/b"]]
      ["http://x.com/a", "http://x.com/b"] rfl (by decide) rfl
  exact h.trans (by decide)

/-- C6 (amended): an index-service error that surfaces as a caught request
exception — transport failure, non-success HTTP status, or a malformed JSON
body — is recovered at domain granularity: pagination for that domain stops
with a diagnostic naming the domain and the offset, and the accumulated URLs
are kept; but a successfully parsed response containing a row with no first
column raises an uncaught error that terminates the whole process (an
`Outcome.crash`), not just the current domain. -/
theorem caught_errors_domain_granularity
    (s1 s2 : Service) (domain : String) (chunk_size : Nat) (param_filter : Bool)
    (fuel1 fuel2 offset1 offset2 : Nat) (st1 st2 : FetchResult)
    (data : List (List String))
    (herr : s1 offset1 = Response.err)
    (hok : s2 offset2 = Response.ok data)
    (hne : data.drop 1 ≠ [])
    (hbad : extractFirsts (data.drop 1) = none) :
    fetchLoop s1 chunk_size param_filter domain (fuel1 + 1) offset1 st1
      = some (Outcome.done { st1 with requests := st1.requests + 1,
                                      errors := st1.errors ++ [(domain, offset1)] })
  ∧ fetchLoop s2 chunk_size param_filter domain (fuel2 + 1) offset2 st2
      = some (Outcome.crash { st2 with requests := st2.requests + 1 }) :=
  ⟨fetchLoop_err_step s1 chunk_size param_filter domain fuel1 offset1 st1 herr,
   fetchLoop_crash_step s2 chunk_size param_filter domain fuel2 offset2 st2 data
     hok hne hbad⟩

/-- Witness for C6 (amended): a service that fails at offset 0 makes the
fetch stop with the diagnostic ("b.com", 0); a service whose first data row
is empty makes the fetch crash. -/
theorem caught_errors_domain_granularity_witness :
    fetchLoop (fun _ => Response.err) 5000 false "b.com" 10 0 ⟨[], 0, []⟩
      = some (Outcome.done ⟨[], 1, [("b.com", 0)]⟩)
  ∧ fetchLoop (fun _ => Response.ok [["original"], []]) 5000 false "b.com" 10 0 ⟨[], 0, []⟩
      = some (Outcome.crash ⟨[], 1, []⟩) := by
  have h := caught_errors_domain_granularity
      (fun _ => Response.err) (fun _ => Response.ok [["original"], []])
      "b.com" 5000 false 9 9 0 0 ⟨[], 0, []⟩ ⟨[], 0, []⟩
      [["original"], []] rfl rfl (by decide) rfl
  exact ⟨h.1.trans (by decide), h.2.trans (by decide)⟩

/-- C6 counterexample: the claim as stated is false — a response whose rows
lack the expected shape is NOT recovered at domain granularity.  With the
index service answering "b.com" with the page `[["original"], []]` (a data
row with no first column), the fetch crashes (uncaught IndexError from
`item[0]`), and the multi-domain run dies before processing "c.com". -/
theorem malformed_row_crashes_process_cex :
    fetch_wayback_urls
        ((fun d => if d = "b.com" then (fun _ => Response.ok [["original"], []])
                   else cdxService ["http://c.example/x"] 5000) "b.com")
        "b.com" 5000 false 10
      = some (Outcome.crash ⟨[], 1, []⟩)
  ∧ runDomains
        (fun d => if d = "b.com" then (fun _ => Response.ok [["original"], []])
                  else cdxService ["http://c.example/x"] 5000)
        5000 false 10 ["b.com", "c.com"]
      = none := by
  exact ⟨by decide, by decide⟩

/-! Full pagination runs against the well-behaved CDX service. -/

theorem applyFilter_nil (param_filter : Bool) : applyFilter param_filter [] = [] := by
  cases param_filter <;> rfl

theorem applyFilter_append (param_filter : Bool) (l1 l2 : List String) :
    applyFilter param_filter (l1 ++ l2)
      = applyFilter param_filter l1 ++ applyFilter param_filter l2 := by
  cases param_filter <;> simp [applyFilter]

theorem extractFirsts_map (l : List String) :
    extractFirsts (l.map (fun u => [u])) = some l := by
  induction l with
  | nil => rfl
  | cons h t ih => simp [extractFirsts, ih]

theorem fetchLoop_cdxService (index : List String) (N : Nat) (hN : 1 ≤ N)
    (param_filter : Bool) (domain : String) :
    ∀ fuel offset st, (index.drop offset).length / N + 1 ≤ fuel →
      fetchLoop (cdxService index N) N param_filter domain fuel offset st
        = some (Outcome.done
            { st with urls := st.urls ++ applyFilter param_filter (index.drop offset),
                      requests := st.requests + ((index.drop offset).length / N + 1) }) := by
  intro fuel
  induction fuel with
  | zero => intro offset st h; exact absurd h (Nat.not_succ_le_zero _)
  | succ f ih =>
    intro offset st
    obtain ⟨su, sr, se⟩ := st
    intro h
    rcases hrest : index.drop offset with - | ⟨a, t⟩
    · rw [fetchLoop_empty_step (cdxService index N) N param_filter domain f offset _
            (["original"] :: ((index.drop offset).take N).map (fun u => [u])) rfl
            (by simp [hrest])]
      simp [applyFilter_nil]
    · have hne : (((index.drop offset).take N).map (fun u => [u])) ≠ [] := by
        apply List.ne_nil_of_length_pos
        simp only [List.length_map, List.length_take, hrest, List.length_cons]
        omega
      rw [fetchLoop_ok_step (cdxService index N) N param_filter domain f offset _
            (["original"] :: ((index.drop offset).take N).map (fun u => [u]))
            ((index.drop offset).take N) rfl hne
            (extractFirsts_map ((index.drop offset).take N))]
      rw [hrest] at h ⊢
      simp only [List.length_cons] at h
      by_cases hsmall : t.length + 1 < N
      · rw [if_pos (by simp only [List.drop_one, List.tail_cons, List.length_map,
              List.length_take, List.length_cons]; omega)]
        rw [List.take_of_length_le (by simp only [List.length_cons]; omega)]
        simp only [List.length_cons, Nat.div_eq_of_lt hsmall]
      · have hNle : N ≤ t.length + 1 := Nat.le_of_not_lt hsmall
        rw [if_neg (by simp only [List.drop_one, List.tail_cons, List.length_map,
              List.length_take, List.length_cons]; omega)]
        have hdd : index.drop (offset + N) = (a :: t).drop N := by
          rw [← hrest, List.drop_drop]
        have hlen2 : (index.drop (offset + N)).length = t.length + 1 - N := by
          rw [hdd, List.length_drop, List.length_cons]
        have hdiv : (t.length + 1) / N = (index.drop (offset + N)).length / N + 1 := by
          rw [hlen2, Nat.div_eq_sub_div (by omega) hNle]
        rw [ih (offset + N) _ (by omega)]
        have htake : applyFilter param_filter (a :: t)
            = applyFilter param_filter ((a :: t).take N)
                ++ applyFilter param_filter (index.drop (offset + N)) := by
          rw [hdd, ← applyFilter_append, List.take_append_drop]
        simp only [Option.some.injEq, Outcome.done.injEq, FetchResult.mk.injEq,
          List.length_cons]
        refine ⟨?_, ?_, trivial⟩
        · rw [htake, List.append_assoc]
        · omega

theorem chunksOfAux_flatten (N : Nat) (hN : 1 ≤ N) (param_filter : Bool) :
    ∀ fuel (l : List String), l.length ≤ fuel →
      ((chunksOfAux N fuel l).map (applyFilter param_filter)).flatten
        = applyFilter param_filter l := by
  intro fuel
  induction fuel with
  | zero =>
    intro l h
    have : l = [] := List.eq_nil_of_length_eq_zero (by omega)
    simp [this, chunksOfAux, applyFilter_nil]
  | succ f ih =>
    intro l h
    cases l with
    | nil => simp [chunksOfAux, applyFilter_nil]
    | cons a t =>
      simp only [List.length_cons] at h
      simp only [chunksOfAux, List.map_cons, List.flatten_cons]
      rw [ih ((a :: t).drop N)
            (by simp only [List.length_drop, List.length_cons]; omega)]
      rw [← applyFilter_append, List.take_append_drop]

theorem chunksOf_flatten (N : Nat) (hN : 1 ≤ N) (param_filter : Bool)
    (l : List String) :
    ((chunksOf N l).map (applyFilter param_filter)).flatten
      = applyFilter param_filter l :=
  chunksOfAux_flatten N hN param_filter l.length l (Nat.le_refl _)

/-- C1: against a CDX index holding exactly N × k URLs, a fetch with page
size N (with any fuel of at least k + 1 iterations) returns normally having
issued exactly k + 1 page requests, and the last request — the one at offset
N × k — returns an empty data page: a page of exactly N rows always triggers
one more request to confirm exhaustion. -/
theorem pagination_issues_k_plus_one_requests (N k : Nat) (hN : 1 ≤ N)
    (index : List String) (hlen : index.length = N * k) (param_filter : Bool)
    (domain : String) (fuel : Nat) (hfuel : k + 1 ≤ fuel) :
    (∃ r, fetch_wayback_urls (cdxService index N) domain N param_filter fuel
        = some (Outcome.done r) ∧ r.requests = k + 1)
  ∧ pageRows (cdxService index N (N * k)) = [] := by
  have hdiv : (index.drop 0).length / N + 1 = k + 1 := by
    simp [hlen, Nat.mul_div_cancel_left k (by omega : 0 < N)]
  constructor
  · refine ⟨_, fetchLoop_cdxService index N hN param_filter domain fuel 0 ⟨[], 0, []⟩
        (by omega), ?_⟩
    simpa using hdiv
  · have hdropnil : index.drop (N * k) = [] :=
      List.drop_eq_nil_of_le (by omega)
    simp [pageRows, cdxService, hdropnil]

/-- Witness for C1: an index of 4 URLs with page size 2 takes 3 requests
(two full pages, one empty confirmation), and the page at offset 4 is empty. -/
theorem pagination_issues_k_plus_one_requests_witness :
    (∃ r, fetch_wayback_urls
        (cdxService ["http://a/1", "http://a/2", "http://a/3", "http://a/4"] 2)
        "d" 2 false 3 = some (Outcome.done r) ∧ r.requests = 2 + 1)
  ∧ pageRows (cdxService ["http://a/1", "http://a/2", "http://a/3", "http://a/4"] 2 (2 * 2))
      = [] :=
  pagination_issues_k_plus_one_requests 2 2 (by decide)
    ["http://a/1", "http://a/2", "http://a/3", "http://a/4"] (by decide) false "d" 3
    (by decide)

/-- C8: for every domain the returned URL sequence is exactly the
concatenation, in page order, of each served page filtered by the parameter
filter (all entries kept when filtering is disabled): order is as received
from the service, and this layer performs no sorting and no deduplication. -/
theorem result_is_filtered_page_concat (index : List String) (N : Nat)
    (hN : 1 ≤ N) (param_filter : Bool) (domain : String) (fuel : Nat)
    (hfuel : index.length / N + 1 ≤ fuel) :
    ∃ r, fetch_wayback_urls (cdxService index N) domain N param_filter fuel
        = some (Outcome.done r)
      ∧ r.urls = ((chunksOf N index).map (applyFilter param_filter)).flatten := by
  refine ⟨_, fetchLoop_cdxService index N hN param_filter domain fuel 0 ⟨[], 0, []⟩
      (by simpa using hfuel), ?_⟩
  simp [chunksOf_flatten N hN param_filter index]

/-- Witness for C8: three URLs, pages of 2, filtering on — the result is the
flattening of the filtered pages. -/
theorem result_is_filtered_page_concat_witness :
    ∃ r, fetch_wayback_urls
        (cdxService ["http://x.com/?id=5", "http://x.com/a", "http://x.com/?q=1"] 2)
        "d" 2 true 2 = some (Outcome.done r)
      ∧ r.urls = ((chunksOf 2 ["http://x.com/?id=5", "http://x.com/a", "http://x.com/?q=1"]).map
            (applyFilter true)).flatten :=
  result_is_filtered_page_concat
    ["http://x.com/?id=5", "http://x.com/a", "http://x.com/?q=1"] 2 (by decide)
    true "d" 2 (by decide)

/-! A fetch that hits a request error mid-pagination. -/

theorem fetchLoop_serviceWithErrorAt (index : List String) (N : Nat) (hN : 1 ≤ N)
    (param_filter : Bool) (domain : String) :
    ∀ j fuel offset st, j + 1 ≤ fuel → N * j ≤ (index.drop offset).length →
      fetchLoop (serviceWithErrorAt index N (offset + N * j)) N param_filter domain
          fuel offset st
        = some (Outcome.done
            { st with
                urls := st.urls ++
                  applyFilter param_filter ((index.drop offset).take (N * j)),
                requests := st.requests + (j + 1),
                errors := st.errors ++ [(domain, offset + N * j)] }) := by
  intro j
  induction j with
  | zero =>
    intro fuel offset st hf hlen
    obtain ⟨f, rfl⟩ : ∃ f, fuel = f + 1 := ⟨fuel - 1, by omega⟩
    rw [fetchLoop_err_step _ _ _ _ _ _ _ (by simp [serviceWithErrorAt])]
    simp [applyFilter_nil]
  | succ j ih =>
    intro fuel offset st hf hlen
    obtain ⟨f, rfl⟩ : ∃ f, fuel = f + 1 := ⟨fuel - 1, by omega⟩
    have hexp : N * (j + 1) = N * j + N := Nat.mul_succ N j
    have hneq : offset ≠ offset + N * (j + 1) := by omega
    have hok : serviceWithErrorAt index N (offset + N * (j + 1)) offset
        = Response.ok (["original"] :: ((index.drop offset).take N).map (fun u => [u])) := by
      simp [serviceWithErrorAt, hneq, cdxService]
    have hNle : N ≤ (index.drop offset).length := by omega
    have hne : (((index.drop offset).take N).map (fun u => [u])) ≠ [] := by
      apply List.ne_nil_of_length_pos
      simp only [List.length_map, List.length_take]
      omega
    rw [fetchLoop_ok_step _ N param_filter domain f offset st
          (["original"] :: ((index.drop offset).take N).map (fun u => [u]))
          ((index.drop offset).take N) hok hne
          (extractFirsts_map ((index.drop offset).take N))]
    rw [if_neg (by simp only [List.drop_one, List.tail_cons, List.length_map,
          List.length_take]; omega)]
    have harg : offset + N * (j + 1) = (offset + N) + N * j := by omega
    rw [harg]
    have hdd : (index.drop offset).drop N = index.drop (offset + N) := by
      rw [List.drop_drop]
    have hlen' : N * j ≤ (index.drop (offset + N)).length := by
      rw [← hdd, List.length_drop]
      omega
    rw [ih f (offset + N) _ (by omega) hlen']
    have htake : (index.drop offset).take (N * (j + 1))
        = (index.drop offset).take N
            ++ (index.drop (offset + N)).take (N * j) := by
      rw [← hdd, hexp, Nat.add_comm (N * j) N, List.take_add]
    simp only [Option.some.injEq, Outcome.done.injEq, FetchResult.mk.injEq]
    refine ⟨?_, by omega, trivial⟩
    rw [htake, applyFilter_append, List.append_assoc]

/-- C3: when the page request at offset N × j fails (transport error or
non-success status), pagination for that domain stops immediately — the
failing request is the last one issued, with no retry — the URLs accumulated
from the j earlier full pages are still returned for the domain together
with a diagnostic naming the domain and the offset, and in multi-domain mode
every subsequent domain in the list is still processed exactly as it would
have been. -/
theorem domain_error_degrades_gracefully (N j : Nat) (hN : 1 ≤ N)
    (indexB : List String) (hlen : N * j ≤ indexB.length)
    (services : String → Service) (b : String)
    (hb : services b = serviceWithErrorAt indexB N (N * j))
    (rest : List String) (param_filter : Bool) (fuel : Nat)
    (hfuel : j + 1 ≤ fuel) :
    fetch_wayback_urls (services b) b N param_filter fuel
      = some (Outcome.done
          { urls := applyFilter param_filter (indexB.take (N * j)),
            requests := j + 1, errors := [(b, N * j)] })
  ∧ runDomains services N param_filter fuel (b :: rest)
      = (runDomains services N param_filter fuel rest).map (fun l =>
          (b, ({ urls := applyFilter param_filter (indexB.take (N * j)),
                 requests := j + 1,
                 errors := [(b, N * j)] } : FetchResult)) :: l) := by
  have hfetch : fetch_wayback_urls (services b) b N param_filter fuel
      = some (Outcome.done
          { urls := applyFilter param_filter (indexB.take (N * j)),
            requests := j + 1, errors := [(b, N * j)] }) := by
    rw [fetch_wayback_urls, hb]
    have h := fetchLoop_serviceWithErrorAt indexB N hN param_filter b j fuel 0
        ⟨[], 0, []⟩ hfuel (by simpa using hlen)
    simpa using h
  refine ⟨hfetch, ?_⟩
  simp [runDomains, hfetch]

/-- Witness for C3: with pages of 2, domain "b.com" fails at offset 2 after
one full page; its two URLs are kept with the diagnostic ("b.com", 2), and
"c.com" is still processed. -/
theorem domain_error_degrades_gracefully_witness :
    fetch_wayback_urls
        ((fun d => if d = "b.com"
            then serviceWithErrorAt ["http://b/1", "http://b/2", "http://b/3"] 2 (2 * 1)
            else cdxService ["http://c/1"] 2) "b.com") "b.com" 2 false 2
      = some (Outcome.done
          { urls := applyFilter false (["http://b/1", "http://b/2", "http://b/3"].take (2 * 1)),
            requests := 1 + 1, errors := [("b.com", 2 * 1)] })
  ∧ runDomains
        (fun d => if d = "b.com"
            then serviceWithErrorAt ["http://b/1", "http://b/2", "http://b/3"] 2 (2 * 1)
            else cdxService ["http://c/1"] 2) 2 false 2 ["b.com", "c.com"]
      = (runDomains
            (fun d => if d = "b.com"
                then serviceWithErrorAt ["http://b/1", "http://b/2", "http://b/3"] 2 (2 * 1)
                else cdxService ["http://c/1"] 2) 2 false 2 ["c.com"]).map (fun l =>
          ("b.com", ({ urls := applyFilter false (["http://b/1", "http://b/2", "http://b/3"].take (2 * 1)),
                       requests := 1 + 1,
                       errors := [("b.com", 2 * 1)] } : FetchResult)) :: l) :=
  domain_error_degrades_gracefully 2 1 (by decide)
    ["http://b/1", "http://b/2", "http://b/3"] (by decide)
    (fun d => if d = "b.com"
        then serviceWithErrorAt ["http://b/1", "http://b/2", "http://b/3"] 2 (2 * 1)
        else cdxService ["http://c/1"] 2)
    "b.com" rfl ["c.com"] false 2 (by decide)

/-! Query-string construction. -/

/-- C7: a fetch with a positive year window `y` performed in calendar year Y
puts exactly `&from=Y-y&to=Y` into every outgoing index query (between the
fixed base query and the `limit`/`offset` suffix), and with no time window
set no from/to parameters are added. -/
theorem time_window_bounds (y : Int) (hy : 0 < y) (domain : String)
    (currentYear : Int) (chunk_size offset : Nat) :
    cdx_api_url (cdx_base_api_url domain (some y) currentYear) chunk_size offset
      = cdx_base domain ++ "&from=" ++ toString (currentYear - y) ++ "&to="
          ++ toString currentYear ++ "&limit=" ++ toString chunk_size
          ++ "&offset=" ++ toString offset
  ∧ cdx_api_url (cdx_base_api_url domain none currentYear) chunk_size offset
      = cdx_base domain ++ "&limit=" ++ toString chunk_size
          ++ "&offset=" ++ toString offset := by
  constructor
  · simp only [cdx_api_url, cdx_base_api_url, if_pos hy]
  · rfl

/-- Witness for C7: years = 2 in calendar year 2026 yields from=2024, to=2026. -/
theorem time_window_bounds_witness :
    cdx_api_url (cdx_base_api_url "example.com" (some 2) 2026) 5000 0
      = cdx_base "example.com" ++ "&from=" ++ toString (2026 - (2 : Int)) ++ "&to="
          ++ toString (2026 : Int) ++ "&limit=" ++ toString (5000 : Nat)
          ++ "&offset=" ++ toString (0 : Nat)
  ∧ cdx_api_url (cdx_base_api_url "example.com" none 2026) 5000 0
      = cdx_base "example.com" ++ "&limit=" ++ toString (5000 : Nat)
          ++ "&offset=" ++ toString (0 : Nat) :=
  time_window_bounds 2 (by decide) "example.com" 2026 5000 0

/-- C10: a years value of 0 or any negative number behaves identically to
passing no time window: every outgoing query string is the same as with no
window, so the from/to bounds are omitted rather than producing an error or
an empty window. -/
theorem nonpositive_years_unrestricted (y : Int) (hy : y ≤ 0) (domain : String)
    (currentYear : Int) (chunk_size offset : Nat) :
    cdx_api_url (cdx_base_api_url domain (some y) currentYear) chunk_size offset
      = cdx_api_url (cdx_base_api_url domain none currentYear) chunk_size offset := by
  simp only [cdx_base_api_url, if_neg (not_lt.mpr hy)]

/-- Witness for C10: years = -3 produces the same query as no window. -/
theorem nonpositive_years_unrestricted_witness :
    cdx_api_url (cdx_base_api_url "example.com" (some (-3)) 2026) 5000 0
      = cdx_api_url (cdx_base_api_url "example.com" none 2026) 5000 0 :=
  nonpositive_years_unrestricted (-3) (by decide) "example.com" 2026 5000 0

/-! CLI validation. -/

/-- C9: if neither or both target modes are supplied (Python truthiness:
absent or empty strings do not count as supplied), `main` exits through
`parser.error` with a descriptive message and zero page requests issued;
and if the supplied domain-list file does not exist, `main` exits through
`sys.exit` with a descriptive message and zero page requests issued. -/
theorem cli_rejected_before_network
    (single1 multiple1 single2 : Option String) (f : String)
    (fe1 fe2 : String → Bool) (rl : String → List String) (sv : String → Service)
    (chunk_size : Nat) (param_filter : Bool) (fuel : Nat)
    (hcomb : truthy single1 = truthy multiple1)
    (hs2 : truthy single2 = false) (hf : f ≠ "")
    (hmiss : fe2 f.trim = false) :
    (∃ msg, main_model single1 multiple1 fe1 rl sv chunk_size param_filter fuel
        = MainOutcome.exited msg 0)
  ∧ (∃ msg, main_model single2 (some f) fe2 rl sv chunk_size param_filter fuel
        = MainOutcome.exited msg 0) := by
  constructor
  · cases h : truthy single1 with
    | false =>
      refine ⟨"Please provide either --single-target or --multiple-targets.", ?_⟩
      simp [main_model, mainStart, h, hcomb ▸ h]
    | true =>
      refine ⟨"Please provide only one: --single-target OR --multiple-targets.", ?_⟩
      simp [main_model, mainStart, h, hcomb ▸ h]
  · refine ⟨"The file " ++ f.trim ++ " does not exist.", ?_⟩
    have ht : truthy (some f) = true := by
      simp [truthy, hf]
    simp [main_model, mainStart, hs2, ht, hmiss]

/-- Witness for C9: no target at all is rejected, and a missing list file
"nope.txt" is rejected, both with zero requests issued. -/
theorem cli_rejected_before_network_witness :
    (∃ msg, main_model none none (fun _ => true) (fun _ => [])
        (fun _ _ => Response.err) 5000 false 10 = MainOutcome.exited msg 0)
  ∧ (∃ msg, main_model none (some "nope.txt") (fun _ => false) (fun _ => [])
        (fun _ _ => Response.err) 5000 false 10 = MainOutcome.exited msg 0) :=
  cli_rejected_before_network none none none "nope.txt" (fun _ => true)
    (fun _ => false) (fun _ => []) (fun _ _ => Response.err) 5000 false 10
    rfl rfl (by decide) rfl

end Waybaccino
